import Mathlib

/-!
Verification of the PPCG GPU code-generation pass
(`lib/CodeGen/PPCGCodeGeneration.cpp`).

The development shallowly embeds the data model and the operations of the
pass: LLVM types are a small inductive with the size computations used by
the pass, kernels are records carrying the information the pass reads from
`ppcg_kernel` / `gpu_prog`, and the stateful builder functions become pure
functions (explicit state passing, emission traces as lists of runtime
calls).  Each definition is annotated with the source function and line
range it embeds.
-/

/-! ## LLVM types and size computations -/

/-- A fragment of LLVM's type language: the types that can occur as kernel
argument types in the pass (scalar element types, integers, and pointers).
Address spaces are irrelevant for sizes and are not modelled. -/
inductive LLVMType where
  | half
  | float
  | double
  | int (bits : Nat)
  | ptrTo (pointee : LLVMType)
  deriving DecidableEq, Repr

/-- `llvm::Type::getPrimitiveSizeInBits`: primitive size of a type in bits;
pointers are not primitive and report 0. -/
def primitiveSizeInBits : LLVMType → Nat
  | LLVMType.half => 16
  | LLVMType.float => 32
  | LLVMType.double => 64
  | LLVMType.int b => b
  | LLVMType.ptrTo _ => 0

/-- `llvm::Type::getScalarSizeInBits`: like the primitive size for scalar
types; pointers report 0. -/
def scalarSizeInBits : LLVMType → Nat
  | LLVMType.ptrTo _ => 0
  | t => primitiveSizeInBits t

/-- `computeSizeInBytes` (PPCGCodeGeneration.cpp:281-286): primitive size in
bytes, falling back to the scalar size when the primitive size is zero. -/
def computeSizeInBytes (t : LLVMType) : Nat :=
  let bytes := primitiveSizeInBits t / 8
  if bytes = 0 then scalarSizeInBits t / 8 else bytes

/-- `ScopArrayInfo::getElemSizeInBytes`, and the element size stored into
`PPCGArray.size` (PPCGCodeGeneration.cpp:2636): the element type's
primitive size in bits divided by 8. -/
def elemSizeInBytes (t : LLVMType) : Nat :=
  primitiveSizeInBits t / 8

/-- Modelled from the spec: the store size in bytes of an LLVM type on the
64-bit device targets the pass supports (pointers occupy 8 bytes per the
NVPTX64/SPIR64 data layouts).  This is the claim's yardstick "size in bytes
of formal argument i's type"; it is not a function of the pass itself. -/
def sizeofArgType : LLVMType → Nat
  | LLVMType.ptrTo _ => 8
  | LLVMType.int b => (b + 7) / 8
  | t => primitiveSizeInBits t / 8

/-! ## Kernel and array descriptors -/

/-- The per-array data the pass reads while building argument lists: the
`ppcg_kernel_requires_array_argument` outcome, the
`gpu_array_is_read_only_scalar` flag, the element type
(`ScopArrayInfo::getElementType`) and the dimensionality
(`ScopArrayInfo::getNumberOfDimensions`). -/
structure GPUArrayDesc where
  required : Bool
  readOnlyScalar : Bool
  elemType : LLVMType
  nDims : Nat
  deriving DecidableEq, Repr

/-- The data of one `ppcg_kernel` consumed by the embedded functions:
`Prog->array` (with the per-kernel required flags folded in), the types of
the host values bound to the host iterators (`isl_space_dim(Kernel->space,
isl_dim_set)` many) and to the scheduling parameters
(`isl_space_dim(Kernel->space, isl_dim_param)` many), the types of the
closure (subtree) values, and the launch geometry `n_grid` / `n_block`. -/
structure KernelModel where
  arrays : List GPUArrayDesc
  hostIterTypes : List LLVMType
  paramTypes : List LLVMType
  closureTypes : List LLVMType
  nGrid : Nat
  nBlock : Nat
  deriving DecidableEq, Repr

/-- The arrays that pass `ppcg_kernel_requires_array_argument`; both
`createKernelFunctionDecl` and `createLaunchParameters` iterate
`Prog->n_array` and skip the others. -/
def requiredArrays (k : KernelModel) : List GPUArrayDesc :=
  k.arrays.filter (fun a => a.required)

/-- Which loop of the two argument-building functions produced a slot:
required-array arguments, host iterators, scheduling parameters, closure
values (in each group, the running index within the group). -/
inductive SlotSource where
  | arrayArg (i : Nat)
  | hostIter (i : Nat)
  | schedParam (i : Nat)
  | closureVal (i : Nat)
  deriving DecidableEq, Repr

/-- The array-argument loop of `createKernelFunctionDecl`
(PPCGCodeGeneration.cpp:1728-1744): the element type for a read-only
scalar, an `i8` device pointer otherwise. -/
def arrayDeclArgs : Nat → List GPUArrayDesc → List (SlotSource × LLVMType)
  | _, [] => []
  | i, a :: as =>
    (SlotSource.arrayArg i,
      if a.readOnlyScalar then a.elemType else LLVMType.ptrTo (LLVMType.int 8))
    :: arrayDeclArgs (i + 1) as

/-- The host-iterator loop of `createKernelFunctionDecl`
(PPCGCodeGeneration.cpp:1746-1752): always `i64`. -/
def iterDeclArgs : Nat → List LLVMType → List (SlotSource × LLVMType)
  | _, [] => []
  | i, _ :: ts => (SlotSource.hostIter i, LLVMType.int 64) :: iterDeclArgs (i + 1) ts

/-- The scheduling-parameter loop of `createKernelFunctionDecl`
(PPCGCodeGeneration.cpp:1754-1763): the host value's type. -/
def paramDeclArgs : Nat → List LLVMType → List (SlotSource × LLVMType)
  | _, [] => []
  | i, t :: ts => (SlotSource.schedParam i, t) :: paramDeclArgs (i + 1) ts

/-- The closure-value loop of `createKernelFunctionDecl`
(PPCGCodeGeneration.cpp:1765-1769): the value's type. -/
def closureDeclArgs : Nat → List LLVMType → List (SlotSource × LLVMType)
  | _, [] => []
  | i, t :: ts => (SlotSource.closureVal i, t) :: closureDeclArgs (i + 1) ts

/-- `GPUNodeBuilder::createKernelFunctionDecl` (PPCGCodeGeneration.cpp:
1720-1771), argument-type portion: the four loops in declaration order,
each formal tagged with the loop that declared it. -/
def declArgs (k : KernelModel) : List (SlotSource × LLVMType) :=
  arrayDeclArgs 0 (requiredArrays k)
  ++ iterDeclArgs 0 k.hostIterTypes
  ++ paramDeclArgs 0 k.paramTypes
  ++ closureDeclArgs 0 k.closureTypes

/-- The array-argument loop of `createLaunchParameters`
(PPCGCodeGeneration.cpp:1458-1511): the size word is
`SAI->getElemSizeInBytes()` (line 1465). -/
def arrayLaunchSlots : Nat → List GPUArrayDesc → List (SlotSource × Nat)
  | _, [] => []
  | i, a :: as =>
    (SlotSource.arrayArg i, elemSizeInBytes a.elemType) :: arrayLaunchSlots (i + 1) as

/-- The host-iterator loop of `createLaunchParameters`
(PPCGCodeGeneration.cpp:1513-1529): the size word is `computeSizeInBytes`
of the stored host value's type (line 1520). -/
def iterLaunchSlots : Nat → List LLVMType → List (SlotSource × Nat)
  | _, [] => []
  | i, t :: ts =>
    (SlotSource.hostIter i, computeSizeInBytes t) :: iterLaunchSlots (i + 1) ts

/-- The scheduling-parameter loop of `createLaunchParameters`
(PPCGCodeGeneration.cpp:1531-1547): the size word is `computeSizeInBytes`
of the stored host value's type (line 1538). -/
def paramLaunchSlots : Nat → List LLVMType → List (SlotSource × Nat)
  | _, [] => []
  | i, t :: ts =>
    (SlotSource.schedParam i, computeSizeInBytes t) :: paramLaunchSlots (i + 1) ts

/-- The closure-value loop of `createLaunchParameters`
(PPCGCodeGeneration.cpp:1549-1559): the size word is `computeSizeInBytes`
of the value's type (line 1550). -/
def closureLaunchSlots : Nat → List LLVMType → List (SlotSource × Nat)
  | _, [] => []
  | i, t :: ts =>
    (SlotSource.closureVal i, computeSizeInBytes t) :: closureLaunchSlots (i + 1) ts

/-- `GPUNodeBuilder::createLaunchParameters` (PPCGCodeGeneration.cpp:
1442-1575), value-slot portion: the four loops in storage order, each slot
tagged with the loop that stored it and paired with its size word. -/
def launchSlots (k : KernelModel) : List (SlotSource × Nat) :=
  arrayLaunchSlots 0 (requiredArrays k)
  ++ iterLaunchSlots 0 k.hostIterTypes
  ++ paramLaunchSlots 0 k.paramTypes
  ++ closureLaunchSlots 0 k.closureTypes

/-- The formal argument types declared by `createKernelFunctionDecl`. -/
def declArgTypes (k : KernelModel) : List LLVMType :=
  (declArgs k).map (fun p => p.2)

/-- The declaration order of the formals, by producing loop. -/
def declArgSources (k : KernelModel) : List SlotSource :=
  (declArgs k).map (fun p => p.1)

/-- The size words stored by `createLaunchParameters`, in slot order. -/
def launchSlotSizes (k : KernelModel) : List Nat :=
  (launchSlots k).map (fun p => p.2)

/-- The slot order of the launch parameter block, by producing loop. -/
def launchSlotSources (k : KernelModel) : List SlotSource :=
  (launchSlots k).map (fun p => p.1)

/-- The underlying value type behind each formal, in declaration order: the
array element type for array arguments, the passed host value's type for
host iterators, scheduling parameters and closure values. -/
def declUnderlyingTypes (k : KernelModel) : List LLVMType :=
  (requiredArrays k).map (fun a => a.elemType)
  ++ k.hostIterTypes ++ k.paramTypes ++ k.closureTypes

/-- Claim C1 as stated: slot order matches formal order, and every slot's
size word is the size in bytes of the corresponding formal's type. -/
def C1Statement (k : KernelModel) : Prop :=
  (launchSlotSizes k).length = (declArgTypes k).length ∧
  launchSlotSources k = declArgSources k ∧
  launchSlotSizes k = (declArgTypes k).map sizeofArgType

/-! ## Scalar write-back hazard (`finalizeKernelArguments`) -/

/-- The `StoredScalar` outcome of `GPUNodeBuilder::finalizeKernelArguments`
(PPCGCodeGeneration.cpp:1932-1964): a store-back is emitted for every
required array that is zero-dimensional and not a read-only scalar. -/
def storesScalarBack (k : KernelModel) : Bool :=
  (requiredArrays k).any (fun a => a.nDims == 0 && !a.readOnlyScalar)

/-- The effect of `GPUNodeBuilder::finalizeKernelArguments`
(PPCGCodeGeneration.cpp:1966-1972) on the `BuildSuccessful` flag: when a
scalar was stored back and the kernel has `n_block != 0 || n_grid != 0`,
the flag is cleared; otherwise it is left unchanged. -/
def finalizeKernelArgumentsFlag (k : KernelModel) (buildSuccessful : Bool) : Bool :=
  if storesScalarBack k then
    if k.nBlock ≠ 0 ∨ k.nGrid ≠ 0 then false else buildSuccessful
  else buildSuccessful

/-! ## Kill-set analysis (`computeMustKillsInfo`) -/

/-- The `polly::MemoryKind` cases relevant to kill-set selection. -/
inductive MemoryKind where
  | value
  | phi
  | exitPhi
  | array
  deriving DecidableEq, Repr

/-- One `ScopArrayInfo`: its base-pointer id, its memory kind, and one entry
per user instruction of its base pointer recording whether the region
contains that instruction (`R.contains(I)`). -/
structure SAIModel where
  id : Nat
  kind : MemoryKind
  usersInside : List Bool
  deriving DecidableEq, Repr

/-- `isScalarUsesContainedInScop` (PPCGCodeGeneration.cpp:147-160): true
iff every user instruction of the scalar lies inside the region. -/
def isScalarUsesContainedInScop (sai : SAIModel) : Bool :=
  sai.usersInside.all (fun b => b)

/-- `ScopArrayInfo::isPHIKind`. -/
def isPHIKind (sai : SAIModel) : Bool :=
  decide (sai.kind = MemoryKind.phi)

/-- `ScopArrayInfo::isValueKind`. -/
def isValueKind (sai : SAIModel) : Bool :=
  decide (sai.kind = MemoryKind.value)

/-- The selection criterion of `computeMustKillsInfo`
(PPCGCodeGeneration.cpp:175-179): phi nodes unconditionally, value-kind
scalars only when all their uses are inside the region. -/
def killSelect (sai : SAIModel) : Bool :=
  isPHIKind sai || (isValueKind sai && isScalarUsesContainedInScop sai)

/-- The result of `computeMustKillsInfo` (PPCGCodeGeneration.cpp:167-240):
the base-pointer ids collected into `KillMemIds` (each contributing one
`TaggedMustKills` entry), and the kill schedule, which stays the null
value when no scalar qualifies and otherwise merges one node per kill. -/
structure MustKillsInfoModel where
  killIds : List Nat
  killsSchedule : Option Nat
  deriving DecidableEq, Repr

/-- `computeMustKillsInfo` (PPCGCodeGeneration.cpp:167-240). -/
def computeMustKillsInfo (arrays : List SAIModel) : MustKillsInfoModel :=
  let killMemIds := (arrays.filter killSelect).map (fun sai => sai.id)
  { killIds := killMemIds
    killsSchedule := if killMemIds.isEmpty then none else some killMemIds.length }

/-! ## Host runtime-call traces (`createUser`, managed memory) -/

/-- The host-runtime entry points the generated host code can call
(PPCGCodeGeneration.cpp:612-692). -/
inductive RuntimeCall where
  | initContext
  | freeContext
  | allocDeviceMemory
  | freeDeviceMemory
  | copyHostToDevice
  | copyDeviceToHost
  | synchronizeDevice
  | getDevicePtr
  | getKernel
  | launchKernel
  | freeKernel
  deriving DecidableEq, Repr

/-- A host-side user node as dispatched by `GPUNodeBuilder::createUser`
(PPCGCodeGeneration.cpp:1144-1204): a kernel node (carrying the number of
required array arguments of its kernel), a `to_device` or `from_device`
transfer node, or any other user node (which emits no runtime call). -/
inductive HostNode where
  | kernelLaunch (nRequiredArrays : Nat)
  | toDevice
  | fromDevice
  | other
  deriving DecidableEq, Repr

/-- Count the occurrences of a runtime call in a trace. -/
def countRuntime (c : RuntimeCall) : List RuntimeCall → Nat
  | [] => 0
  | x :: xs => (if x = c then 1 else 0) + countRuntime c xs

/-- Count the `from_device` nodes among a list of host user nodes. -/
def countFromDevice : List HostNode → Nat
  | [] => 0
  | HostNode.fromDevice :: xs => 1 + countFromDevice xs
  | _ :: xs => countFromDevice xs

/-- The host runtime calls emitted by one `createUser` dispatch
(PPCGCodeGeneration.cpp:1144-1204).  A kernel node runs
`createLaunchParameters`, which per required array calls
`polly_getDevicePtr` only in non-managed mode (lines 1468-1474), then emits
`polly_getKernel`, `polly_launchKernel`, `polly_freeKernel`
(lines 1660-1672).  `to_device` emits a host-to-device copy only in
non-managed mode (lines 1158-1166); `from_device` emits a device-to-host
copy in non-managed mode and a `polly_synchronizeDevice` call in managed
mode (lines 1168-1177). -/
def createUserCalls (managed : Bool) : HostNode → List RuntimeCall
  | HostNode.kernelLaunch n =>
      (if managed then [] else List.replicate n RuntimeCall.getDevicePtr)
      ++ [RuntimeCall.getKernel, RuntimeCall.launchKernel, RuntimeCall.freeKernel]
  | HostNode.toDevice =>
      if managed then [] else [RuntimeCall.copyHostToDevice]
  | HostNode.fromDevice =>
      if managed then [RuntimeCall.synchronizeDevice]
      else [RuntimeCall.copyDeviceToHost]
  | HostNode.other => []

/-- `GPUNodeBuilder::initializeAfterRTH` (PPCGCodeGeneration.cpp:700-710):
initialize the context, and allocate one device array per program array
only in non-managed mode. -/
def initializeAfterRTHCalls (managed : Bool) (nArrays : Nat) : List RuntimeCall :=
  [RuntimeCall.initContext]
  ++ (if managed then [] else List.replicate nArrays RuntimeCall.allocDeviceMemory)

/-- `GPUNodeBuilder::finalize` (PPCGCodeGeneration.cpp:712-718): free the
device arrays only in non-managed mode, then free the context. -/
def finalizeCalls (managed : Bool) (nArrays : Nat) : List RuntimeCall :=
  (if managed then [] else List.replicate nArrays RuntimeCall.freeDeviceMemory)
  ++ [RuntimeCall.freeContext]

/-- The full host runtime-call trace of one generated region:
`initializeAfterRTH`, then one `createUser` dispatch per user node, then
`finalize`. -/
def hostCallTrace (managed : Bool) (nArrays : Nat) (nodes : List HostNode) :
    List RuntimeCall :=
  initializeAfterRTHCalls managed nArrays
  ++ nodes.flatMap (createUserCalls managed)
  ++ finalizeCalls managed nArrays

/-! ## Kernel-content validity and `runOnScop` -/

/-- Character-level prefix test (`StringRef::startswith`). -/
def strStartsWith : List Char → List Char → Bool
  | _, [] => true
  | [], _ :: _ => false
  | c :: s, p :: ps => c == p && strStartsWith s ps

/-- A referenced `llvm::Function`: its intrinsic flag and its name. -/
structure FuncRef where
  isIntrinsic : Bool
  name : List Char
  deriving DecidableEq, Repr

/-- `isValidFunctionInKernel` (PPCGCodeGeneration.cpp:1288-1294): only
intrinsics whose name starts with `llvm.sqrt` are allowed in a kernel. -/
def isValidFunctionInKernel (f : FuncRef) : Bool :=
  f.isIntrinsic && strStartsWith f.name
    ['l', 'l', 'v', 'm', '.', 's', 'q', 'r', 't']

/-- An instruction as seen by `containsInvalidKernelFunctionInBllock`: a
direct call (whose callee operand is itself a function-pointer operand), or
any other instruction with a flag recording whether one of its operands has
function-pointer type. -/
inductive Instr where
  | call (callee : FuncRef)
  | op (hasFnPtrOperand : Bool)
  deriving DecidableEq, Repr

/-- `containsInvalidKernelFunctionInBllock` (PPCGCodeGeneration.cpp:
3012-3028): a call to a whitelisted function is skipped; any other
instruction touching a function-pointer operand (in particular a call to a
non-whitelisted function, whose callee is such an operand) makes the block
invalid. -/
def containsInvalidKernelFunctionInBllock (blk : List Instr) : Bool :=
  blk.any fun inst =>
    match inst with
    | Instr.call f => !isValidFunctionInKernel f
    | Instr.op hasFnPtr => hasFnPtr

/-- One region statement: the basic blocks it covers (a block statement has
one, a region statement several). -/
structure ScopStmtModel where
  blocks : List (List Instr)
  deriving DecidableEq, Repr

/-- The region (Scop): its statements. -/
structure ScopModel where
  stmts : List ScopStmtModel
  deriving DecidableEq, Repr

/-- `containsInvalidKernelFunction` (PPCGCodeGeneration.cpp:3031-3045). -/
def containsInvalidKernelFunction (s : ScopModel) : Bool :=
  s.stmts.any fun st => st.blocks.any containsInvalidKernelFunctionInBllock

/-- The observable outcome of `runOnScop`: the host runtime calls emitted
into the region, and whether code generation ran at all (i.e. whether
`generateCode` was invoked and the region marked as replaced). -/
structure RunOnScopResult where
  emittedCalls : List RuntimeCall
  codeGenerated : Bool
  deriving DecidableEq, Repr

/-- `PPCGCodeGeneration::runOnScop` (PPCGCodeGeneration.cpp:3106-3142):
bail out before any code generation when the region contains an invalid
kernel function; otherwise generate code iff the external scheduler
produced an AST (`PPCGGen->tree`), here abstracted as an optional list of
host user nodes. -/
def runOnScop (scop : ScopModel) (managed : Bool) (nArrays : Nat)
    (tree : Option (List HostNode)) : RunOnScopResult :=
  if containsInvalidKernelFunction scop then
    { emittedCalls := [], codeGenerated := false }
  else
    match tree with
    | some nodes =>
        { emittedCalls := hostCallTrace managed nArrays nodes, codeGenerated := true }
    | none => { emittedCalls := [], codeGenerated := false }

/-! ## Extent, bounds and offset (`getExtent`, `setArrayBounds`,
`getArrayOffset`) -/

/-- An array as seen by the extent computation: an opaque identity and its
number of dimensions. -/
structure ArrayModel where
  arrId : Nat
  nDims : Nat
  deriving DecidableEq, Repr

/-- One element of the range of the region's access union
(`isl_union_map_range` of all accesses intersected with the domains),
recording which array it belongs to and its dimension-0 subscript. -/
structure AccessElem where
  arrId : Nat
  idx0 : Int
  deriving DecidableEq, Repr

/-- The shapes an extent set takes in the embedding: the empty set, the
universal set of the array's space, or (projected to dimension 0) an
integer interval `[lo, hi]`. -/
inductive ExtSet where
  | empty
  | univ
  | interval (lo hi : Int)
  deriving DecidableEq, Repr

/-- The dimension-0 subscripts of the accesses belonging to one array
(`isl_union_set_extract_set(AccessUSet, Array->getSpace())`). -/
def ownIndices (accs : List AccessElem) (arr : ArrayModel) : List Int :=
  (accs.filter (fun e => e.arrId == arr.arrId)).map (fun e => e.idx0)

/-- Minimum of a list of integers (`isl_set_dim_min`), none on the empty
set. -/
def listMin : List Int → Option Int
  | [] => none
  | x :: xs =>
    match listMin xs with
    | none => some x
    | some m => some (min x m)

/-- Maximum of a list of integers (`isl_set_dim_max`), none on the empty
set. -/
def listMax : List Int → Option Int
  | [] => none
  | x :: xs =>
    match listMax xs with
    | none => some x
    | some m => some (max x m)

/-- `PPCGCodeGeneration::getExtent` (PPCGCodeGeneration.cpp:2505-2576),
projected to dimension 0.  The function first collects the range of ALL
accesses of the region and returns the empty set when that union is empty
(lines 2515-2518); only then does a zero-dimensional array yield the
universal set (lines 2520-2523).  Otherwise the extent constrains
dimension 0 between the minimal and maximal subscript observed for this
array; when this array itself has no accesses, the isl min/max of the
extracted empty set have empty domains, so the built constraints intersect
to the empty set. -/
def getExtent (accs : List AccessElem) (arr : ArrayModel) : ExtSet :=
  if accs.isEmpty then ExtSet.empty
  else if arr.nDims == 0 then ExtSet.univ
  else
    match listMin (ownIndices accs arr), listMax (ownIndices accs arr) with
    | some lo, some hi => ExtSet.interval lo hi
    | _, _ => ExtSet.empty

/-- The dimension-0 bound computed by `PPCGCodeGeneration::setArrayBounds`
(PPCGCodeGeneration.cpp:2586-2609) for an array with `n_index > 0`: the
zero affine function when the extent is empty, otherwise
`isl_set_dim_max(extent, 0) + 1`.  A universal extent does not reach this
code (it only arises for zero-dimensional arrays); `isl_set_dim_max` has no
finite value there, modelled as `none`. -/
def setArrayBoundsDim0 : ExtSet → Option Int
  | ExtSet.empty => some 0
  | ExtSet.univ => none
  | ExtSet.interval _ hi => some (hi + 1)

/-- `GPUNodeBuilder::getArrayOffset` (PPCGCodeGeneration.cpp:1027-1067):
null for a scalar array; otherwise take the lexicographic minimum of the
extent, return null when it is contained in the all-zero set (in dimension
0: when the minimum is provably 0; also when the extent is empty), and
otherwise return the symbolic minimum of dimension 0. -/
def getArrayOffset (arr : ArrayModel) (extent : ExtSet) : Option Int :=
  if arr.nDims == 0 then none
  else
    match extent with
    | ExtSet.empty => none
    | ExtSet.univ => none
    | ExtSet.interval lo _ => if lo = 0 then none else some lo

/-- Claim C2 as stated: when the dimension-0 accesses of a non-scalar array
range over `[m, M]`, the computed bound is `M - m + 1` and the offset is
omitted exactly when `m = 0`. -/
def C2Statement (accs : List AccessElem) (arr : ArrayModel) (m M : Int) : Prop :=
  listMin (ownIndices accs arr) = some m →
  listMax (ownIndices accs arr) = some M →
  arr.nDims ≠ 0 →
  setArrayBoundsDim0 (getExtent accs arr) = some (M - m + 1) ∧
  getArrayOffset arr (getExtent accs arr) = (if m = 0 then none else some m)

/-- Claim C8 as stated: the universal set for a zero-dimensional array, and
the empty set when the array's access set is empty. -/
def C8Statement (accs : List AccessElem) (arr : ArrayModel) : Prop :=
  (arr.nDims = 0 → getExtent accs arr = ExtSet.univ) ∧
  ((ownIndices accs arr).isEmpty = true → getExtent accs arr = ExtSet.empty)

/-! ## Kernel lowering state (`createKernel`, `generateCode`) -/

/-- The builder state visible across `GPUNodeBuilder::createKernel`: the
name-binding tables (`IDToValue`, `ValueMap`, `ScalarMap`, `EscapeMap`,
`IDToSAI`, all modelled as association lists over opaque handles), the
generated-code insertion point, the kernel-depth bookkeeping, and the
build-success flag. -/
structure BuilderState where
  idToValue : List (Nat × Nat)
  valueMap : List (Nat × Nat)
  scalarMap : List (Nat × Nat)
  escapeMap : List (Nat × Nat)
  idToSAI : List (Nat × Nat)
  insertPoint : Nat
  deepestParallel : Nat
  deepestSequential : Nat
  buildSuccessful : Bool
  deriving DecidableEq, Repr

/-- `GPUNodeBuilder::createKernel` (PPCGCodeGeneration.cpp:1592-1678).
First the depth bookkeeping (lines 1598-1603): a kernel with `n_grid > 1`
raises `DeepestParallel`, any other kernel raises `DeepestSequential`, both
to `isl_space_dim(Kernel->space, isl_dim_set)` (the host-iterator count).
Then the host-side state is snapshotted (lines 1614-1617), `ScalarMap` is
cleared (line 1618) and the device-side lowering runs (lines 1634-1645,
abstracted as `lowerDeviceTree` since it targets the separate kernel
module).  Afterwards the snapshots are written back, `EscapeMap` and
`IDToSAI` are cleared (lines 1647-1652) and the insertion point returns to
the saved host instruction (line 1659) for the launch emission. -/
def createKernel (k : KernelModel) (lowerDeviceTree : BuilderState → BuilderState)
    (s0 : BuilderState) : BuilderState :=
  let s1 :=
    if 1 < k.nGrid then
      { s0 with deepestParallel := max s0.deepestParallel k.hostIterTypes.length }
    else
      { s0 with deepestSequential := max s0.deepestSequential k.hostIterTypes.length }
  let hostInsertPoint := s1.insertPoint
  let hostIDs := s1.idToValue
  let hostValueMap := s1.valueMap
  let hostScalarMap := s1.scalarMap
  let s2 := lowerDeviceTree { s1 with scalarMap := [] }
  { s2 with
    idToValue := hostIDs
    valueMap := hostValueMap
    scalarMap := hostScalarMap
    escapeMap := []
    idToSAI := []
    insertPoint := hostInsertPoint }

/-- Lowering of all kernel nodes of a region in order (the `create(Root)`
walk restricted to its kernel dispatches), with the device-side lowering of
each kernel abstracted away (it does not touch the host-visible fields the
claims are about). -/
def processKernels (ks : List KernelModel) (s : BuilderState) : BuilderState :=
  ks.foldl (fun st k => createKernel k id st) s

/-- The value the run-time guard operand of the offloaded path holds after
`generateCode`: the real run-time check, or the constant `false`. -/
inductive GuardOperand where
  | runtimeCheck
  | constFalse
  deriving DecidableEq, Repr

/-- The guard-operand logic at the end of
`PPCGCodeGeneration::generateCode` (PPCGCodeGeneration.cpp:3087-3104): the
operand starts as the generated run-time check; it is overwritten with the
constant `false` when `DeepestSequential > DeepestParallel`, and again when
`BuildSuccessful` is unset. -/
def generateCodeGuard (ks : List KernelModel) (s : BuilderState) : GuardOperand :=
  let st := processKernels ks s
  let g := GuardOperand.runtimeCheck
  let g := if st.deepestParallel < st.deepestSequential then GuardOperand.constFalse else g
  if st.buildSuccessful then g else GuardOperand.constFalse

/-! ## Kernel closure extraction (`getReferencesInKernel`) -/

/-- An `llvm::Value` as the closure extraction sees it: an opaque identity
plus whether the value is an `llvm::Function`. -/
structure ValModel where
  valId : Nat
  isFunc : Bool
  deriving DecidableEq, Repr

/-- The inputs of `GPUNodeBuilder::getReferencesInKernel`
(PPCGCodeGeneration.cpp:1320-1371): the values currently bound in
`IDToValue`, the values referenced by the kernel's statements (including
those found through their SCEVs), the base pointers of all region arrays,
the values bound to the scheduling parameters, and the values bound to the
kernel-space iterators. -/
structure KernelRefsModel where
  idToValues : List ValModel
  stmtValues : List ValModel
  arrayBasePtrs : List ValModel
  paramValues : List ValModel
  kernelIterValues : List ValModel

/-- `SetVector::insert`: append unless already present. -/
def svInsert (xs : List ValModel) (x : ValModel) : List ValModel :=
  if x ∈ xs then xs else xs ++ [x]

/-- The `SubtreeValues` set after the collection phase
(PPCGCodeGeneration.cpp:1328-1335). -/
def collectSubtreeValues (k : KernelRefsModel) : List ValModel :=
  (k.idToValues ++ k.stmtValues).foldl svInsert []

/-- `SetVector::remove` of every member of a list. -/
def removeVals (xs remove : List ValModel) : List ValModel :=
  xs.filter (fun v => decide (v ∉ remove))

/-- `SubtreeValues` after the three removal phases: array base pointers
(lines 1337-1338), scheduling-parameter values (lines 1340-1348),
kernel-space iterator values (lines 1350-1356). -/
def filteredSubtreeValues (k : KernelRefsModel) : List ValModel :=
  removeVals (removeVals (removeVals (collectSubtreeValues k) k.arrayBasePtrs)
      k.paramValues)
    k.kernelIterValues

/-- `GPUNodeBuilder::getReferencesInKernel` (PPCGCodeGeneration.cpp:
1358-1370): partition the remaining subtree values into non-function
values (`isValidSubtreeValue`) and functions
(`getFunctionsFromRawSubtreeValues`). -/
def getReferencesInKernel (k : KernelRefsModel) : List ValModel × List ValModel :=
  ((filteredSubtreeValues k).filter (fun v => !v.isFunc),
   (filteredSubtreeValues k).filter (fun v => v.isFunc))

/-! ## Helper lemmas -/

theorem elemSize_eq_computeSize (t : LLVMType) :
    elemSizeInBytes t = computeSizeInBytes t := by
  cases t <;>
    simp [elemSizeInBytes, computeSizeInBytes, primitiveSizeInBits, scalarSizeInBits]

theorem arrayArgs_fst : ∀ (i : Nat) (l : List GPUArrayDesc),
    (arrayLaunchSlots i l).map (fun p => p.1) = (arrayDeclArgs i l).map (fun p => p.1) := by
  intro i l
  induction l generalizing i with
  | nil => rfl
  | cons a as ih => simp [arrayLaunchSlots, arrayDeclArgs, ih]

theorem iterArgs_fst : ∀ (i : Nat) (l : List LLVMType),
    (iterLaunchSlots i l).map (fun p => p.1) = (iterDeclArgs i l).map (fun p => p.1) := by
  intro i l
  induction l generalizing i with
  | nil => rfl
  | cons t ts ih => simp [iterLaunchSlots, iterDeclArgs, ih]

theorem paramArgs_fst : ∀ (i : Nat) (l : List LLVMType),
    (paramLaunchSlots i l).map (fun p => p.1) = (paramDeclArgs i l).map (fun p => p.1) := by
  intro i l
  induction l generalizing i with
  | nil => rfl
  | cons t ts ih => simp [paramLaunchSlots, paramDeclArgs, ih]

theorem closureArgs_fst : ∀ (i : Nat) (l : List LLVMType),
    (closureLaunchSlots i l).map (fun p => p.1)
      = (closureDeclArgs i l).map (fun p => p.1) := by
  intro i l
  induction l generalizing i with
  | nil => rfl
  | cons t ts ih => simp [closureLaunchSlots, closureDeclArgs, ih]

theorem arrayLaunchSlots_snd : ∀ (i : Nat) (l : List GPUArrayDesc),
    (arrayLaunchSlots i l).map (fun p => p.2)
      = (l.map (fun a => a.elemType)).map computeSizeInBytes := by
  intro i l
  induction l generalizing i with
  | nil => rfl
  | cons a as ih => simp [arrayLaunchSlots, ih, elemSize_eq_computeSize]

theorem iterLaunchSlots_snd : ∀ (i : Nat) (l : List LLVMType),
    (iterLaunchSlots i l).map (fun p => p.2) = l.map computeSizeInBytes := by
  intro i l
  induction l generalizing i with
  | nil => rfl
  | cons t ts ih => simp [iterLaunchSlots, ih]

theorem paramLaunchSlots_snd : ∀ (i : Nat) (l : List LLVMType),
    (paramLaunchSlots i l).map (fun p => p.2) = l.map computeSizeInBytes := by
  intro i l
  induction l generalizing i with
  | nil => rfl
  | cons t ts ih => simp [paramLaunchSlots, ih]

theorem closureLaunchSlots_snd : ∀ (i : Nat) (l : List LLVMType),
    (closureLaunchSlots i l).map (fun p => p.2) = l.map computeSizeInBytes := by
  intro i l
  induction l generalizing i with
  | nil => rfl
  | cons t ts ih => simp [closureLaunchSlots, ih]

/-! ## Claim C1 -/

/-- Claim C1, counterexample: for a kernel with a single required
non-read-only-scalar `float` array, the slot's size word is the element
size 4 while the declared formal is an `i8` device pointer of size 8; the
size words are not the sizeof of the formal types. -/
theorem C1_counterexample :
    ¬ C1Statement { arrays := [{ required := true, readOnlyScalar := false,
                                 elemType := LLVMType.float, nDims := 1 }],
                    hostIterTypes := [], paramTypes := [], closureTypes := [],
                    nGrid := 1, nBlock := 1 } := by
  intro h
  exact absurd h.2.2 (by decide)

/-- Claim C1 (amended): the launch parameter block has exactly one value
slot per declared formal argument, in the same order (required arrays, host
iterators, scheduling parameters, closure values); the size word of slot
`i`, however, is the size in bytes of the argument's underlying value type
— the array's element type for an array slot, the stored host value's type
for the other slots — not the sizeof of the declared formal's type (for a
non-read-only-scalar array the formal is an opaque device pointer while
the size word is the array's element size). -/
theorem C1_amended (k : KernelModel) :
    (launchSlotSizes k).length = (declArgTypes k).length ∧
    launchSlotSources k = declArgSources k ∧
    launchSlotSizes k = (declUnderlyingTypes k).map computeSizeInBytes := by
  have hsrc : launchSlotSources k = declArgSources k := by
    simp only [launchSlotSources, declArgSources, launchSlots, declArgs,
      List.map_append, arrayArgs_fst, iterArgs_fst, paramArgs_fst, closureArgs_fst]
  have hsizes : launchSlotSizes k = (declUnderlyingTypes k).map computeSizeInBytes := by
    simp only [launchSlotSizes, launchSlots, declUnderlyingTypes, List.map_append,
      arrayLaunchSlots_snd, iterLaunchSlots_snd, paramLaunchSlots_snd,
      closureLaunchSlots_snd]
  refine ⟨?_, hsrc, hsizes⟩
  have h1 : (launchSlotSizes k).length = (launchSlotSources k).length := by
    simp [launchSlotSizes, launchSlotSources]
  have h2 : (declArgTypes k).length = (declArgSources k).length := by
    simp [declArgTypes, declArgSources]
  rw [h1, h2, hsrc]

/-! ## Claim C2 -/

/-- Claim C2, counterexample: for a one-dimensional array accessed at
dimension-0 subscripts 42 and 99 (min 42, max 99), the claim demands the
bound `99 - 42 + 1 = 58`, but `setArrayBounds` computes
`isl_set_dim_max(extent, 0) + 1 = 100`. -/
theorem C2_counterexample :
    ¬ C2Statement [⟨0, 42⟩, ⟨0, 99⟩] ⟨0, 1⟩ 42 99 := by
  intro h
  have h2 := h (by decide) (by decide) (by decide)
  exact absurd h2.1 (by decide)

/-- Claim C2 (amended): for a non-scalar array whose dimension-0 accesses
range over `[m, M]`, the computed dimension-0 bound is `M + 1` (the
maximum plus one, not `M - m + 1`; the minimum is subtracted later, when
allocation and copy sizes are adjusted by the offset), and the computed
offset is the absent value when the minimum is zero and the symbolic
minimum `m` otherwise. -/
theorem C2_amended (accs : List AccessElem) (arr : ArrayModel) (m M : Int)
    (hdim : arr.nDims ≠ 0)
    (hmin : listMin (ownIndices accs arr) = some m)
    (hmax : listMax (ownIndices accs arr) = some M) :
    setArrayBoundsDim0 (getExtent accs arr) = some (M + 1) ∧
    getArrayOffset arr (getExtent accs arr) = (if m = 0 then none else some m) := by
  have hne : accs.isEmpty = false := by
    cases accs with
    | nil => simp [ownIndices, listMin] at hmin
    | cons a as => rfl
  have hd : (arr.nDims == 0) = false := by
    simpa using hdim
  have hext : getExtent accs arr = ExtSet.interval m M := by
    simp [getExtent, hne, hd, hmin, hmax]
  rw [hext]
  exact ⟨rfl, by simp [getArrayOffset, hd]⟩

/-- Claim C2 witness: the accesses `A[42]`, `A[99]` of a one-dimensional
array yield dimension-0 bound 100 and offset 42. -/
theorem C2_amended_witness :
    setArrayBoundsDim0 (getExtent [⟨0, 42⟩, ⟨0, 99⟩] ⟨0, 1⟩) = some 100 ∧
    getArrayOffset ⟨0, 1⟩ (getExtent [⟨0, 42⟩, ⟨0, 99⟩] ⟨0, 1⟩) = some 42 := by
  have h := C2_amended [⟨0, 42⟩, ⟨0, 99⟩] ⟨0, 1⟩ 42 99 (by decide) (by decide) (by decide)
  refine ⟨by rw [h.1]; decide, by rw [h.2]; decide⟩

/-! ## Claim C3 -/

/-- Claim C3: the must-kill selection of `computeMustKillsInfo` contains
every phi-kind scalar unconditionally, contains a value-kind scalar iff
every user instruction of it lies inside the region, and never contains a
value-kind scalar with a use outside the region. -/
theorem C3_kill_selection (arrays : List SAIModel) (sai : SAIModel)
    (hmem : sai ∈ arrays) (hnodup : (arrays.map (fun a => a.id)).Nodup) :
    (sai.kind = MemoryKind.phi → sai.id ∈ (computeMustKillsInfo arrays).killIds) ∧
    (sai.kind = MemoryKind.value →
      (sai.id ∈ (computeMustKillsInfo arrays).killIds ↔
        isScalarUsesContainedInScop sai = true)) ∧
    (sai.kind = MemoryKind.value → false ∈ sai.usersInside →
      sai.id ∉ (computeMustKillsInfo arrays).killIds) := by
  have hfwd : killSelect sai = true → sai.id ∈ (computeMustKillsInfo arrays).killIds := by
    intro hks
    exact List.mem_map_of_mem _ (List.mem_filter.mpr ⟨hmem, hks⟩)
  have hbwd : sai.id ∈ (computeMustKillsInfo arrays).killIds → killSelect sai = true := by
    intro hin
    obtain ⟨b, hb, hbid⟩ := List.mem_map.mp hin
    have hbf := List.mem_filter.mp hb
    have hbeq : b = sai :=
      List.inj_on_of_nodup_map hnodup hbf.1 hmem hbid
    rw [← hbeq]
    exact hbf.2
  refine ⟨?_, ?_, ?_⟩
  · intro hphi
    exact hfwd (by simp [killSelect, isPHIKind, hphi])
  · intro hval
    constructor
    · intro hin
      have hks := hbwd hin
      simpa [killSelect, isPHIKind, isValueKind, hval] using hks
    · intro hcont
      exact hfwd (by simp [killSelect, isValueKind, hval, hcont])
  · intro hval hout hin
    have hks := hbwd hin
    have hcont : isScalarUsesContainedInScop sai = true := by
      simpa [killSelect, isPHIKind, isValueKind, hval] using hks
    have := (List.all_eq_true.mp hcont) false hout
    simp at this

/-- Claim C3 witness: a phi scalar with an outside use is killed, a
value-kind scalar with all uses inside is killed, and a value-kind scalar
with one outside use is not. -/
theorem C3_kill_selection_witness :
    (0 ∈ (computeMustKillsInfo
      [⟨0, MemoryKind.phi, [false]⟩, ⟨1, MemoryKind.value, [true, true]⟩,
       ⟨2, MemoryKind.value, [true, false]⟩]).killIds) ∧
    (1 ∈ (computeMustKillsInfo
      [⟨0, MemoryKind.phi, [false]⟩, ⟨1, MemoryKind.value, [true, true]⟩,
       ⟨2, MemoryKind.value, [true, false]⟩]).killIds) ∧
    (2 ∉ (computeMustKillsInfo
      [⟨0, MemoryKind.phi, [false]⟩, ⟨1, MemoryKind.value, [true, true]⟩,
       ⟨2, MemoryKind.value, [true, false]⟩]).killIds) := by
  refine ⟨?_, ?_, ?_⟩
  · exact (C3_kill_selection _ ⟨0, MemoryKind.phi, [false]⟩
      (by decide) (by decide)).1 rfl
  · exact ((C3_kill_selection _ ⟨1, MemoryKind.value, [true, true]⟩
      (by decide) (by decide)).2.1 rfl).mpr (by decide)
  · exact (C3_kill_selection _ ⟨2, MemoryKind.value, [true, false]⟩
      (by decide) (by decide)).2.2 rfl (by decide)

/-! ## Claim C4 -/

/-- Claim C4: when `finalizeKernelArguments` stores back at least one
non-read-only scalar argument, the build-success flag is forced false
exactly when the kernel's grid or block dimensionality is positive, and it
is left unchanged when both are zero (a 1×1×1 kernel). -/
theorem C4_scalar_writeback (k : KernelModel) (b : Bool)
    (h : storesScalarBack k = true) :
    (finalizeKernelArgumentsFlag k true = false ↔ (0 < k.nGrid ∨ 0 < k.nBlock)) ∧
    (k.nGrid = 0 → k.nBlock = 0 → finalizeKernelArgumentsFlag k b = b) := by
  constructor
  · simp only [finalizeKernelArgumentsFlag, h, if_true]
    by_cases hg : k.nGrid = 0
    · by_cases hbk : k.nBlock = 0
      · simp [hg, hbk]
      · simp [hg, hbk, Nat.pos_of_ne_zero hbk]
    · simp [hg, Nat.pos_of_ne_zero hg]
  · intro hg hbk
    simp [finalizeKernelArgumentsFlag, hg, hbk]

/-- Claim C4 witness: with one required non-read-only scalar argument, a
kernel with `n_grid = n_block = 1` has its flag cleared, while a kernel
with `n_grid = n_block = 0` keeps it. -/
theorem C4_scalar_writeback_witness :
    finalizeKernelArgumentsFlag
      ⟨[⟨true, false, LLVMType.int 32, 0⟩], [], [], [], 1, 1⟩ true = false ∧
    finalizeKernelArgumentsFlag
      ⟨[⟨true, false, LLVMType.int 32, 0⟩], [], [], [], 0, 0⟩ true = true := by
  constructor
  · exact (C4_scalar_writeback _ true (by decide)).1.mpr (by decide)
  · exact (C4_scalar_writeback _ true (by decide)).2 rfl rfl

/-! ## Claim C5 -/

theorem countRuntime_append (c : RuntimeCall) (l1 l2 : List RuntimeCall) :
    countRuntime c (l1 ++ l2) = countRuntime c l1 + countRuntime c l2 := by
  induction l1 with
  | nil => simp [countRuntime]
  | cons x xs ih => simp [countRuntime, ih, Nat.add_assoc]

/-- Claim C5: in managed-memory mode the generated host code contains no
device-memory allocate, free or copy runtime call at all, and exactly one
device-synchronization call per `from_device` node encountered. -/
theorem C5_managed_memory (nArrays : Nat) (nodes : List HostNode) :
    countRuntime RuntimeCall.allocDeviceMemory (hostCallTrace true nArrays nodes) = 0 ∧
    countRuntime RuntimeCall.freeDeviceMemory (hostCallTrace true nArrays nodes) = 0 ∧
    countRuntime RuntimeCall.copyHostToDevice (hostCallTrace true nArrays nodes) = 0 ∧
    countRuntime RuntimeCall.copyDeviceToHost (hostCallTrace true nArrays nodes) = 0 ∧
    countRuntime RuntimeCall.synchronizeDevice (hostCallTrace true nArrays nodes) =
      countFromDevice nodes := by
  have hzero : ∀ c : RuntimeCall, c ≠ RuntimeCall.getKernel →
      c ≠ RuntimeCall.launchKernel → c ≠ RuntimeCall.freeKernel →
      c ≠ RuntimeCall.synchronizeDevice →
      ∀ ns : List HostNode,
        countRuntime c (ns.flatMap (createUserCalls true)) = 0 := by
    intro c h1 h2 h3 h4 ns
    induction ns with
    | nil => rfl
    | cons n tl ih =>
      rw [List.flatMap_cons, countRuntime_append, ih]
      cases n <;>
        simp [createUserCalls, countRuntime, countRuntime_append, h1, h2, h3, h4,
          Ne.symm h1, Ne.symm h2, Ne.symm h3, Ne.symm h4]
  have hsync : ∀ ns : List HostNode,
      countRuntime RuntimeCall.synchronizeDevice (ns.flatMap (createUserCalls true)) =
        countFromDevice ns := by
    intro ns
    induction ns with
    | nil => rfl
    | cons n tl ih =>
      rw [List.flatMap_cons, countRuntime_append, ih]
      cases n <;> simp [createUserCalls, countRuntime, countRuntime_append, countFromDevice]
  have htrace : ∀ c : RuntimeCall,
      countRuntime c (hostCallTrace true nArrays nodes) =
        countRuntime c [RuntimeCall.initContext] +
        countRuntime c (nodes.flatMap (createUserCalls true)) +
        countRuntime c [RuntimeCall.freeContext] := by
    intro c
    show countRuntime c (initializeAfterRTHCalls true nArrays ++
      nodes.flatMap (createUserCalls true) ++ finalizeCalls true nArrays) = _
    rw [countRuntime_append, countRuntime_append]
    simp [initializeAfterRTHCalls, finalizeCalls]
  refine ⟨?_, ?_, ?_, ?_, ?_⟩
  · rw [htrace, hzero _ (by decide) (by decide) (by decide) (by decide)]
    decide
  · rw [htrace, hzero _ (by decide) (by decide) (by decide) (by decide)]
    decide
  · rw [htrace, hzero _ (by decide) (by decide) (by decide) (by decide)]
    decide
  · rw [htrace, hzero _ (by decide) (by decide) (by decide) (by decide)]
    decide
  · rw [htrace, hsync]
    simp [countRuntime]

/-! ## Claim C6 -/

theorem mem_removeVals {v : ValModel} {xs r : List ValModel} :
    v ∈ removeVals xs r ↔ v ∈ xs ∧ v ∉ r := by
  simp [removeVals]

theorem mem_filteredSubtreeValues {v : ValModel} {k : KernelRefsModel} :
    v ∈ filteredSubtreeValues k ↔
      v ∈ collectSubtreeValues k ∧ v ∉ k.arrayBasePtrs ∧ v ∉ k.paramValues ∧
        v ∉ k.kernelIterValues := by
  simp [filteredSubtreeValues, mem_removeVals, and_assoc]

/-- Claim C6: the closure computed by `getReferencesInKernel` contains no
array base pointer, no scheduling-parameter value and no kernel-space
iterator value; the returned pair (plain values, callable functions) is
disjoint and its union is exactly the filtered reference set. -/
theorem C6_closure_partition (k : KernelRefsModel) (v : ValModel) :
    ((v ∈ k.arrayBasePtrs ∨ v ∈ k.paramValues ∨ v ∈ k.kernelIterValues) →
      v ∉ (getReferencesInKernel k).1 ∧ v ∉ (getReferencesInKernel k).2) ∧
    ¬ (v ∈ (getReferencesInKernel k).1 ∧ v ∈ (getReferencesInKernel k).2) ∧
    ((v ∈ (getReferencesInKernel k).1 ∨ v ∈ (getReferencesInKernel k).2) ↔
      v ∈ filteredSubtreeValues k) := by
  have h1 : v ∈ (getReferencesInKernel k).1 ↔
      v ∈ filteredSubtreeValues k ∧ v.isFunc = false := by
    simp [getReferencesInKernel, List.mem_filter]
  have h2 : v ∈ (getReferencesInKernel k).2 ↔
      v ∈ filteredSubtreeValues k ∧ v.isFunc = true := by
    simp [getReferencesInKernel, List.mem_filter]
  refine ⟨?_, ?_, ?_⟩
  · intro hv
    constructor
    · intro hmem
      have hrest := mem_filteredSubtreeValues.mp (h1.mp hmem).1
      rcases hv with h | h | h
      · exact hrest.2.1 h
      · exact hrest.2.2.1 h
      · exact hrest.2.2.2 h
    · intro hmem
      have hrest := mem_filteredSubtreeValues.mp (h2.mp hmem).1
      rcases hv with h | h | h
      · exact hrest.2.1 h
      · exact hrest.2.2.1 h
      · exact hrest.2.2.2 h
  · rintro ⟨ha, hb⟩
    have hfa := (h1.mp ha).2
    have hfb := (h2.mp hb).2
    simp [hfa] at hfb
  · constructor
    · rintro (h | h)
      · exact (h1.mp h).1
      · exact (h2.mp h).1
    · intro h
      by_cases hf : v.isFunc
      · exact Or.inr (h2.mpr ⟨h, hf⟩)
      · exact Or.inl (h1.mpr ⟨h, by simpa using hf⟩)

/-- Claim C6 witness: a value that is also an array base pointer appears in
neither component of the returned pair. -/
theorem C6_closure_partition_witness :
    (⟨5, false⟩ : ValModel) ∉ (getReferencesInKernel
      ⟨[⟨5, false⟩, ⟨6, false⟩], [], [⟨5, false⟩], [], []⟩).1 ∧
    (⟨5, false⟩ : ValModel) ∉ (getReferencesInKernel
      ⟨[⟨5, false⟩, ⟨6, false⟩], [], [⟨5, false⟩], [], []⟩).2 :=
  (C6_closure_partition ⟨[⟨5, false⟩, ⟨6, false⟩], [], [⟨5, false⟩], [], []⟩
    ⟨5, false⟩).1 (Or.inl (by decide))

/-! ## Claim C7 -/

/-- Claim C7: when a statement of the region calls an external routine that
is not a whitelisted `llvm.sqrt` intrinsic, `runOnScop` bails out before
any code is emitted: nothing is generated and the region stays
unmodified. -/
theorem C7_invalid_function_bailout (scop : ScopModel) (managed : Bool)
    (nArrays : Nat) (tree : Option (List HostNode)) (f : FuncRef)
    (hf : isValidFunctionInKernel f = false)
    (hin : ∃ st ∈ scop.stmts, ∃ blk ∈ st.blocks, Instr.call f ∈ blk) :
    runOnScop scop managed nArrays tree =
      { emittedCalls := [], codeGenerated := false } := by
  have hinv : containsInvalidKernelFunction scop = true := by
    obtain ⟨st, hst, blk, hblk, hcall⟩ := hin
    refine List.any_eq_true.mpr ⟨st, hst, ?_⟩
    refine List.any_eq_true.mpr ⟨blk, hblk, ?_⟩
    refine List.any_eq_true.mpr ⟨Instr.call f, hcall, ?_⟩
    simp [hf]
  simp [runOnScop, hinv]

/-- Claim C7 witness: a region with a single statement calling a
non-intrinsic routine named `foo` generates nothing. -/
theorem C7_invalid_function_bailout_witness :
    runOnScop ⟨[⟨[[Instr.call ⟨false, ['f', 'o', 'o']⟩]]⟩]⟩ false 2
        (some [HostNode.kernelLaunch 1]) =
      { emittedCalls := [], codeGenerated := false } :=
  C7_invalid_function_bailout _ false 2 _ ⟨false, ['f', 'o', 'o']⟩ (by decide)
    ⟨⟨[[Instr.call ⟨false, ['f', 'o', 'o']⟩]]⟩, by decide,
     [Instr.call ⟨false, ['f', 'o', 'o']⟩], by decide, by decide⟩

/-! ## Claim C8 -/

/-- Claim C8, counterexample: a zero-dimensional array in a region whose
access union is empty.  The claim demands the universal set (zero
dimensions), but `getExtent` tests the emptiness of the region's access
union first and returns the empty set. -/
theorem C8_counterexample : ¬ C8Statement [] ⟨0, 0⟩ := by
  intro h
  exact absurd (h.1 rfl) (by decide)

/-- Claim C8 (amended): `getExtent` first tests whether the union of all
accesses of the region (all arrays together) is empty and returns the
empty set in that case, even for a zero-dimensional array; only when the
region has some access does a zero-dimensional array yield the universal
set; and a non-scalar array none of whose own accesses appear in a
non-empty region still yields the empty set. -/
theorem C8_amended (accs : List AccessElem) (arr : ArrayModel) :
    (accs = [] → getExtent accs arr = ExtSet.empty) ∧
    (accs ≠ [] → arr.nDims = 0 → getExtent accs arr = ExtSet.univ) ∧
    (accs ≠ [] → arr.nDims ≠ 0 → ownIndices accs arr = [] →
      getExtent accs arr = ExtSet.empty) := by
  refine ⟨?_, ?_, ?_⟩
  · intro h
    subst h
    rfl
  · intro hne h0
    have he : accs.isEmpty = false := by
      cases accs with
      | nil => exact absurd rfl hne
      | cons a as => rfl
    simp [getExtent, he, h0]
  · intro hne h0 hown
    have he : accs.isEmpty = false := by
      cases accs with
      | nil => exact absurd rfl hne
      | cons a as => rfl
    have hd : (arr.nDims == 0) = false := by
      simpa using h0
    simp [getExtent, he, hd, hown, listMin]

/-- Claim C8 witness: a non-empty region gives a scalar the universal
extent; an unaccessed one-dimensional array gets the empty extent. -/
theorem C8_amended_witness :
    getExtent [⟨1, 5⟩] ⟨0, 0⟩ = ExtSet.univ ∧
    getExtent [⟨1, 5⟩] ⟨0, 2⟩ = ExtSet.empty := by
  constructor
  · exact (C8_amended [⟨1, 5⟩] ⟨0, 0⟩).2.1 (by decide) rfl
  · exact (C8_amended [⟨1, 5⟩] ⟨0, 2⟩).2.2 (by decide) (by decide) (by decide)

/-! ## Claim C9 -/

/-- Claim C9: lowering a kernel node restores the enclosing host-side
state: whatever the device-side lowering does, `IDToValue`, `ValueMap` and
`ScalarMap` afterwards hold their pre-kernel contents and the insertion
point is back at the saved host insertion point. -/
theorem C9_host_state_restored (k : KernelModel)
    (lowerDeviceTree : BuilderState → BuilderState) (s : BuilderState) :
    (createKernel k lowerDeviceTree s).idToValue = s.idToValue ∧
    (createKernel k lowerDeviceTree s).valueMap = s.valueMap ∧
    (createKernel k lowerDeviceTree s).scalarMap = s.scalarMap ∧
    (createKernel k lowerDeviceTree s).insertPoint = s.insertPoint := by
  by_cases h : 1 < k.nGrid <;> simp [createKernel, h]

/-! ## Claim C10 -/

theorem createKernel_depthParallel (k : KernelModel) (s : BuilderState) :
    (createKernel k id s).deepestParallel =
      (if 1 < k.nGrid then max s.deepestParallel k.hostIterTypes.length
       else s.deepestParallel) := by
  by_cases h : 1 < k.nGrid <;> simp [createKernel, h]

theorem createKernel_depthSequential (k : KernelModel) (s : BuilderState) :
    (createKernel k id s).deepestSequential =
      (if 1 < k.nGrid then s.deepestSequential
       else max s.deepestSequential k.hostIterTypes.length) := by
  by_cases h : 1 < k.nGrid <;> simp [createKernel, h]

theorem createKernel_buildSuccessful (k : KernelModel) (s : BuilderState) :
    (createKernel k id s).buildSuccessful = s.buildSuccessful := by
  by_cases h : 1 < k.nGrid <;> simp [createKernel, h]

theorem processKernels_parallel : ∀ (ks : List KernelModel) (s : BuilderState),
    (processKernels ks s).deepestParallel =
      (ks.filter (fun k => decide (1 < k.nGrid))).foldl
        (fun d k => max d k.hostIterTypes.length) s.deepestParallel := by
  intro ks
  induction ks with
  | nil => intro s; rfl
  | cons k tl ih =>
    intro s
    have hstep : processKernels (k :: tl) s = processKernels tl (createKernel k id s) := rfl
    rw [hstep, ih]
    by_cases h : 1 < k.nGrid <;>
      simp [List.filter_cons, h, createKernel_depthParallel]

theorem processKernels_sequential : ∀ (ks : List KernelModel) (s : BuilderState),
    (processKernels ks s).deepestSequential =
      (ks.filter (fun k => !decide (1 < k.nGrid))).foldl
        (fun d k => max d k.hostIterTypes.length) s.deepestSequential := by
  intro ks
  induction ks with
  | nil => intro s; rfl
  | cons k tl ih =>
    intro s
    have hstep : processKernels (k :: tl) s = processKernels tl (createKernel k id s) := rfl
    rw [hstep, ih]
    by_cases h : 1 < k.nGrid <;>
      simp [List.filter_cons, h, createKernel_depthSequential]

theorem processKernels_buildSuccessful : ∀ (ks : List KernelModel) (s : BuilderState),
    (processKernels ks s).buildSuccessful = s.buildSuccessful := by
  intro ks
  induction ks with
  | nil => intro s; rfl
  | cons k tl ih =>
    intro s
    have hstep : processKernels (k :: tl) s = processKernels tl (createKernel k id s) := rfl
    rw [hstep, ih, createKernel_buildSuccessful]

/-- Claim C10: every kernel with more than one grid dimension raises the
deepest-parallel depth and every other kernel raises the
deepest-sequential depth (each to its surrounding-loop count); after code
generation, if the deepest sequential depth exceeds the deepest parallel
depth, the runtime guard is set to constant false even though the build
succeeded. -/
theorem C10_profitability_guard (ks : List KernelModel) (s : BuilderState)
    (hb : s.buildSuccessful = true)
    (hgt : (processKernels ks s).deepestParallel <
      (processKernels ks s).deepestSequential) :
    generateCodeGuard ks s = GuardOperand.constFalse ∧
    (processKernels ks s).deepestParallel =
      (ks.filter (fun k => decide (1 < k.nGrid))).foldl
        (fun d k => max d k.hostIterTypes.length) s.deepestParallel ∧
    (processKernels ks s).deepestSequential =
      (ks.filter (fun k => !decide (1 < k.nGrid))).foldl
        (fun d k => max d k.hostIterTypes.length) s.deepestSequential := by
  refine ⟨?_, processKernels_parallel ks s, processKernels_sequential ks s⟩
  simp [generateCodeGuard, hgt, processKernels_buildSuccessful, hb]

/-- Claim C10 witness: a single kernel with one grid dimension and two
surrounding loops drives the sequential depth to 2 while the parallel
depth stays 0, so the guard is forced to constant false despite a
successful build. -/
theorem C10_profitability_guard_witness :
    generateCodeGuard [⟨[], [LLVMType.int 64, LLVMType.int 64], [], [], 1, 1⟩]
      ⟨[], [], [], [], [], 0, 0, 0, true⟩ = GuardOperand.constFalse :=
  (C10_profitability_guard [⟨[], [LLVMType.int 64, LLVMType.int 64], [], [], 1, 1⟩]
    ⟨[], [], [], [], [], 0, 0, 0, true⟩ rfl (by decide)).1
